import Mathlib

/-!
# Verification of the goulash/xdg base-directory resolver

A shallow embedding of the Go package `xdg` (files `xdg.go` and the
second package file): the environment-driven resolution of the six
base-directory values (`init`, `xdgPath`, `xdgPaths`), the merge engine
(`merge` / `mergeR` with the `Skip` sentinel), and spec-modelled
find operations whose implementations are stubbed in the sources.

Strings are represented as `List Char` so that all definitions reduce
by `decide` on concrete inputs.  `str` injects Lean string literals.
-/

namespace Xdg

/-- Strings of the embedded program, as lists of characters. -/
abbrev Str := List Char

/-- Inject a Lean string literal into the embedding. -/
def str (s : String) : Str := s.data

/-- Go `path.IsAbs`: true iff the path begins with a slash
(`len(path) > 0 && path[0] == '/'`). -/
def isAbs : Str → Bool
  | '/' :: _ => true
  | _ => false

/-- Go `strings.Split(s, ":")`: split on every colon, keeping empty
segments; the empty string splits to one empty segment. -/
def splitOnColon : Str → List Str
  | [] => [[]]
  | c :: rest =>
    if c = ':' then [] :: splitOnColon rest
    else
      match splitOnColon rest with
      | [] => [[c]]
      | s :: ss => (c :: s) :: ss

/-- Go `strings.Contains(s, "$HOME")`. -/
def containsHome : Str → Bool
  | '$' :: 'H' :: 'O' :: 'M' :: 'E' :: _ => true
  | _ :: rest => containsHome rest
  | [] => false

/-- Go `strings.Replace(s, "$HOME", rep, -1)`: replace every
(left-to-right, non-overlapping) occurrence of `$HOME` by `rep`. -/
def replaceHome (rep : Str) : Str → Str
  | '$' :: 'H' :: 'O' :: 'M' :: 'E' :: rest => rep ++ replaceHome rep rest
  | c :: rest => c :: replaceHome rep rest
  | [] => []

/-- Go `error` values as compared by `==` (pointer identity in Go):
the two package-level sentinels `ErrHomeInvalid` and `Skip` are
distinguished constructors, and every call of `errors.New` yields a
`newErr` carrying only its message — so a freshly constructed error is
never equal to a sentinel, even with the same message text. -/
inductive GoErr where
  | errHomeInvalid : GoErr
  | skip : GoErr
  | newErr : Str → GoErr
deriving DecidableEq, Repr

/-- The message text of an error (`Error()` in Go). -/
def errMsg : GoErr → Str
  | .errHomeInvalid => str "environment variable HOME is invalid or not set"
  | .skip => str "skip the rest of the files to be merged"
  | .newErr m => m

/-- An environment snapshot: `os.Getenv` returns the empty string for
unset variables, so a total function to `Str` models it exactly. -/
abbrev Env := Str → Str

/-- The six resolved directory values plus the accumulated `Errors`
log, as computed by the package `init`. -/
structure Layout where
  home : Str
  configHome : Str
  dataHome : Str
  cacheHome : Str
  runtimeDir : Str
  configDirs : List Str
  dataDirs : List Str
  errs : List GoErr
deriving DecidableEq, Repr

/-- Go `xdgPath(env, def)`: resolve one scalar base directory.
Returns the value together with the diagnostics it appends to
`Errors`.  Translated from `src/xdg.go` lines 185-208. -/
def xdgPath (home : Str) (env : Env) (name defTemplate : Str) : Str × List GoErr :=
  let x0 := env name
  let x :=
    if x0 = [] then
      if containsHome defTemplate then
        if home ≠ [] then replaceHome home defTemplate else x0
      else defTemplate
    else x0
  if isAbs x then (x, [])
  else ([], [GoErr.newErr (str "no value set for " ++ name)])

/-- The loop body of Go `xdgPaths`: keep absolute segments, append one
`"ignoring <VAR> path element: <segment>"` diagnostic per dropped
segment, never aborting the remaining segments. -/
def xdgPathsLoop (name : Str) : List Str → List Str × List GoErr
  | [] => ([], [])
  | x :: rest =>
    let (fs, es) := xdgPathsLoop name rest
    if isAbs x then (x :: fs, es)
    else (fs, GoErr.newErr (str "ignoring " ++ name ++ str " path element: " ++ x) :: es)

/-- Go `xdgPaths(env, def)`: resolve one colon-delimited directory
list.  Translated from `src/xdg.go` lines 210-227 (the list-valued
resolver called `xdgPaths` at its call sites in `init`). -/
def xdgPaths (env : Env) (name defStr : Str) : List Str × List GoErr :=
  let xs0 := env name
  let xs := if xs0 = [] then defStr else xs0
  xdgPathsLoop name (splitOnColon xs)

/-- The package `init` of `src/xdg.go` (lines 170-183), as a function
of the environment snapshot.  The `home` step is translated exactly as
written in the source: `if path.IsAbs(home)` clears `home` and appends
`ErrHomeInvalid` — i.e. the source discards `HOME` when the
absoluteness check passes. -/
def resolve (env : Env) : Layout :=
  let home0 := env (str "HOME")
  let (home, errs0) :=
    if isAbs home0 then (([] : Str), [GoErr.errHomeInvalid])
    else (home0, ([] : List GoErr))
  let (configHome, e1) := xdgPath home env (str "XDG_CONFIG_HOME") (str "$HOME/.config")
  let (dataHome, e2) := xdgPath home env (str "XDG_DATA_HOME") (str "$HOME/.config")
  let (cacheHome, e3) := xdgPath home env (str "XDG_CACHE_HOME") (str "$HOME/.config")
  let (runtimeDir, e4) := xdgPath home env (str "XDG_RUNTIME_DIR") []
  let (configDirs, e5) := xdgPaths env (str "XDG_CONFIG_DIRS") (str "/etc/xdg")
  let (dataDirs, e6) := xdgPaths env (str "XDG_DATA_DIRS") (str "/usr/local/share:/usr/share")
  { home := home, configHome := configHome, dataHome := dataHome,
    cacheHome := cacheHome, runtimeDir := runtimeDir,
    configDirs := configDirs, dataDirs := dataDirs,
    errs := errs0 ++ e1 ++ e2 ++ e3 ++ e4 ++ e5 ++ e6 }

/-- The merge loops of `merge` / `mergeR` (`src/xdg.go` lines 258-282)
over an explicit candidate list, instrumented with the sequence of
paths actually handed to the callback: the first component records
every invocation of `f`, the second is the returned `error` (`none` =
`nil`).  The loop breaks on the first non-nil result; after the loop,
a result equal to the `Skip` sentinel is turned into success. -/
def mergeRun (f : Str → Option GoErr) : List Str → List Str × Option GoErr
  | [] => ([], none)
  | s :: rest =>
    match f s with
    | none =>
      let (vs, r) := mergeRun f rest
      (s :: vs, r)
    | some e => ([s], if e = GoErr.skip then none else some e)

/-- The value `merge`/`mergeR` return to the caller. -/
def merge (f : Str → Option GoErr) (cs : List Str) : Option GoErr :=
  (mergeRun f cs).2

/-- Modelled from the spec: `root/suffix` path formation (§4.3 of the
spec); the find implementations are absent from the sources (the
`Find*` functions are stubs and `find`/`findR` are not present). -/
def pjoin (root suffix : Str) : Str := root ++ str "/" ++ suffix

/-- Modelled from the spec: the candidate root sequence of `findAll`
(§4.3) — `home` first (omitted when empty) then the directory list, in
order, each joined with the suffix. -/
def candidates (suffix home : Str) (dirs : List Str) : List Str :=
  ((if home = [] then [] else [home]) ++ dirs).map (fun root => pjoin root suffix)

/-- Modelled from the spec: `findAll` (§4.3) over a filesystem
existence predicate `fs` — the candidates whose joined path exists,
in candidate order. -/
def findAll (fs : Str → Bool) (suffix home : Str) (dirs : List Str) : List Str :=
  (candidates suffix home dirs).filter fs

/-- Modelled from the spec: the probing loop of `findFirst` (§4.3),
instrumented with the list of candidates actually probed — it stops at
the first existing candidate. -/
def probeFirst (fs : Str → Bool) : List Str → List Str × Option Str
  | [] => ([], none)
  | c :: rest =>
    if fs c then ([c], some c)
    else
      let (ps, r) := probeFirst fs rest
      (c :: ps, r)

/-- Modelled from the spec: `findFirst` (§4.3). -/
def findFirst (fs : Str → Bool) (suffix home : Str) (dirs : List Str) : Option Str :=
  (probeFirst fs (candidates suffix home dirs)).2

/-- Modelled from the spec: the candidate order driven by
`mergeBackward` (§4.4) — the reverse of `findAll`'s order. -/
def findAllReverse (fs : Str → Bool) (suffix home : Str) (dirs : List Str) : List Str :=
  (findAll fs suffix home dirs).reverse

end Xdg

namespace Xdg

/-- The list-resolver loop keeps exactly the absolute segments, in
order, and produces one diagnostic per dropped segment, in order. -/
theorem xdgPathsLoop_eq (name : Str) (l : List Str) :
    xdgPathsLoop name l =
      (l.filter isAbs,
       (l.filter (fun x => !(isAbs x))).map
         (fun x => GoErr.newErr (str "ignoring " ++ name ++ str " path element: " ++ x))) := by
  induction l with
  | nil => rfl
  | cons x rest ih =>
    simp only [xdgPathsLoop, ih, List.filter]
    cases h : isAbs x <;> simp [h]

/-- A callback that answers `nil` on every element of a front segment
lets the merge loop pass through it unchanged. -/
theorem mergeRun_append (f : Str → Option GoErr) (pre l : List Str)
    (h : ∀ x ∈ pre, f x = none) :
    mergeRun f (pre ++ l) = (pre ++ (mergeRun f l).1, (mergeRun f l).2) := by
  induction pre with
  | nil => simp [mergeRun]
  | cons a rest ih =>
    have ha : f a = none := h a (by simp)
    have hrest : ∀ x ∈ rest, f x = none := fun x hx => h x (by simp [hx])
    simp [mergeRun, ha, ih hrest]

/-- A callback that answers `nil` everywhere makes the merge loop
visit every candidate and return success. -/
theorem mergeRun_all_none (f : Str → Option GoErr) (cs : List Str)
    (h : ∀ x ∈ cs, f x = none) :
    mergeRun f cs = (cs, none) := by
  have := mergeRun_append f cs [] h
  simpa [mergeRun] using this

/-- The result of the find probe loop is the head of the filtered
candidate list. -/
theorem probeFirst_head (fs : Str → Bool) (l : List Str) :
    (probeFirst fs l).2 = (l.filter fs).head? := by
  induction l with
  | nil => rfl
  | cons c rest ih =>
    simp only [probeFirst, List.filter]
    cases h : fs c <;> simp [h, ih]

/-- The find probe loop stops exactly at the first existing candidate:
it probes the non-existing front segment, then the hit, and nothing
after it. -/
theorem probeFirst_hit (fs : Str → Bool) :
    ∀ (pre : List Str) (c : Str) (post : List Str),
      (∀ x ∈ pre, fs x = false) → fs c = true →
      probeFirst fs (pre ++ c :: post) = (pre ++ [c], some c) := by
  intro pre
  induction pre with
  | nil =>
    intro c post _ hc
    simp [probeFirst, hc]
  | cons a rest ih =>
    intro c post h hc
    have ha : fs a = false := h a (by simp)
    have hrest : ∀ x ∈ rest, fs x = false := fun x hx => h x (by simp [hx])
    simp [probeFirst, ha, ih c post hrest hc]

end Xdg

namespace Xdg

/-- C3: for every environment in which a directory-list variable is
set to a (non-empty) colon-delimited string, the resolved list is
exactly the absolute segments in original order, with one
`"ignoring <VAR> path element: <segment>"` diagnostic per dropped
segment, dropped segments never aborting the remaining ones. -/
theorem dirs_keep_absolute_segments (env : Env) (name defStr : Str)
    (h : env name ≠ []) :
    xdgPaths env name defStr =
      ((splitOnColon (env name)).filter isAbs,
       ((splitOnColon (env name)).filter (fun x => !(isAbs x))).map
         (fun x => GoErr.newErr (str "ignoring " ++ name ++ str " path element: " ++ x))) := by
  unfold xdgPaths
  simp only [if_neg h]
  exact xdgPathsLoop_eq name (splitOnColon (env name))

/-- Witness for C3: `XDG_DATA_DIRS="/a:rel::/b"` resolves to
`["/a", "/b"]` with one diagnostic for `rel` and one for the empty
segment. -/
theorem dirs_keep_absolute_segments_witness :
    xdgPaths (fun v => if v = str "XDG_DATA_DIRS" then str "/a:rel::/b" else [])
        (str "XDG_DATA_DIRS") (str "/usr/local/share:/usr/share")
      = ([str "/a", str "/b"],
         [GoErr.newErr (str "ignoring XDG_DATA_DIRS path element: rel"),
          GoErr.newErr (str "ignoring XDG_DATA_DIRS path element: ")]) := by
  have h := dirs_keep_absolute_segments
    (fun v => if v = str "XDG_DATA_DIRS" then str "/a:rel::/b" else [])
    (str "XDG_DATA_DIRS") (str "/usr/local/share:/usr/share") (by decide)
  rw [h]; decide

/-- C6: if the callback returns the `Skip` sentinel on some candidate,
the merge loop stops there — the callback is invoked on the earlier
candidates and that one only, none after it — and the caller receives
success (`nil`). -/
theorem merge_skip_stops (f : Str → Option GoErr) (pre : List Str) (c : Str)
    (post : List Str) (h : ∀ x ∈ pre, f x = none) (hc : f c = some GoErr.skip) :
    mergeRun f (pre ++ c :: post) = (pre ++ [c], none) := by
  rw [mergeRun_append f pre (c :: post) h]
  simp [mergeRun, hc]

/-- Witness for C6: over `[/a/f, /b/f, /c/f]` with the callback
returning `Skip` on `/b/f`, only `/a/f` and `/b/f` are visited and the
result is success. -/
theorem merge_skip_stops_witness :
    mergeRun
        (fun s => if s = str "/b/f" then some GoErr.skip else none)
        [str "/a/f", str "/b/f", str "/c/f"]
      = ([str "/a/f", str "/b/f"], none) := by
  have h := merge_skip_stops
    (fun s => if s = str "/b/f" then some GoErr.skip else none)
    [str "/a/f"] (str "/b/f") [str "/c/f"] (by decide) (by decide)
  exact h

/-- C7: a non-`Skip` error returned by the callback stops the merge
loop at that candidate — no later candidate is visited — and is handed
back to the caller unchanged; and when every candidate yields `nil`,
the merge visits them all and returns success. -/
theorem merge_error_propagates :
    (∀ (f : Str → Option GoErr) (pre : List Str) (c : Str) (post : List Str)
        (e : GoErr), (∀ x ∈ pre, f x = none) → f c = some e → e ≠ GoErr.skip →
      mergeRun f (pre ++ c :: post) = (pre ++ [c], some e))
    ∧ (∀ (f : Str → Option GoErr) (cs : List Str), (∀ x ∈ cs, f x = none) →
      mergeRun f cs = (cs, none)) := by
  constructor
  · intro f pre c post e h hc he
    rw [mergeRun_append f pre (c :: post) h]
    simp [mergeRun, hc, he]
  · exact mergeRun_all_none

/-- Witness for C7: a fresh error on `/b/f` is returned verbatim with
`/c/f` unvisited, and an all-`nil` callback visits everything. -/
theorem merge_error_propagates_witness :
    mergeRun
        (fun s => if s = str "/b/f" then some (GoErr.newErr (str "boom")) else none)
        [str "/a/f", str "/b/f", str "/c/f"]
      = ([str "/a/f", str "/b/f"], some (GoErr.newErr (str "boom")))
    ∧ mergeRun (fun _ => none) [str "/a/f", str "/b/f"]
      = ([str "/a/f", str "/b/f"], none) :=
  ⟨merge_error_propagates.1
      (fun s => if s = str "/b/f" then some (GoErr.newErr (str "boom")) else none)
      [str "/a/f"] (str "/b/f") [str "/c/f"] (GoErr.newErr (str "boom"))
      (by decide) (by decide) (by decide),
   merge_error_propagates.2 (fun _ => none) [str "/a/f", str "/b/f"]
      (fun x _ => rfl)⟩

/-- C10: the merge loop recognises the stop outcome by identity with
the `Skip` sentinel: a freshly constructed error is propagated as a
failure even when its message text equals `Skip`'s, no `newErr` value
is ever equal to the sentinel, and because the sentinel test sits
after the loop, `Skip` returned on the last candidate still yields
success. -/
theorem skip_recognised_by_identity :
    (∀ (f : Str → Option GoErr) (c : Str) (msg : Str),
      f c = some (GoErr.newErr msg) → mergeRun f [c] = ([c], some (GoErr.newErr msg)))
    ∧ (∀ msg : Str, GoErr.newErr msg ≠ GoErr.skip)
    ∧ (∀ (f : Str → Option GoErr) (cs : List Str) (c : Str),
      (∀ x ∈ cs, f x = none) → f c = some GoErr.skip →
      mergeRun f (cs ++ [c]) = (cs ++ [c], none)) := by
  refine ⟨?_, ?_, ?_⟩
  · intro f c msg hc
    simp [mergeRun, hc]
  · intro msg h
    exact GoErr.noConfusion h
  · intro f cs c h hc
    rw [mergeRun_append f cs [c] h]
    simp [mergeRun, hc]

/-- Witness for C10: a fresh error whose text is exactly `Skip`'s
message is propagated as a failure, and `Skip` on the last of two
candidates yields success after visiting both. -/
theorem skip_recognised_by_identity_witness :
    mergeRun (fun _ => some (GoErr.newErr (errMsg GoErr.skip))) [str "/a/f"]
      = ([str "/a/f"], some (GoErr.newErr (errMsg GoErr.skip)))
    ∧ mergeRun
        (fun s => if s = str "/b/f" then some GoErr.skip else none)
        [str "/a/f", str "/b/f"]
      = ([str "/a/f", str "/b/f"], none) :=
  ⟨skip_recognised_by_identity.1
      (fun _ => some (GoErr.newErr (errMsg GoErr.skip))) (str "/a/f")
      (errMsg GoErr.skip) rfl,
   skip_recognised_by_identity.2.2
      (fun s => if s = str "/b/f" then some GoErr.skip else none)
      [str "/a/f"] (str "/b/f") (by decide) (by decide)⟩

end Xdg

namespace Xdg

/-- C4: for every suffix, home value and directory list, `findFirst`
returns the head of `findAll`'s result (none when no candidate
exists), and its probe loop stops at the first hit — candidates after
the first existing one are never probed. -/
theorem findFirst_is_head_of_findAll (fs : Str → Bool) (suffix home : Str)
    (dirs : List Str) :
    findFirst fs suffix home dirs = (findAll fs suffix home dirs).head?
    ∧ (∀ (pre : List Str) (c : Str) (post : List Str),
        candidates suffix home dirs = pre ++ c :: post →
        (∀ x ∈ pre, fs x = false) → fs c = true →
        probeFirst fs (candidates suffix home dirs) = (pre ++ [c], some c)) := by
  constructor
  · exact probeFirst_head fs (candidates suffix home dirs)
  · intro pre c post hsplit h hc
    rw [hsplit]
    exact probeFirst_hit fs pre c post h hc

/-- Witness for C4: home `/h`, dirs `[/a, /b]`, only `/a/f` and `/b/f`
exist — `findFirst` returns `/a/f`, matching `findAll`'s head, and the
probe stops before `/b/f`. -/
theorem findFirst_is_head_of_findAll_witness :
    findFirst (fun s => s = str "/a/f" ∨ s = str "/b/f" : Str → Bool)
        (str "f") (str "/h") [str "/a", str "/b"]
      = (findAll (fun s => s = str "/a/f" ∨ s = str "/b/f" : Str → Bool)
          (str "f") (str "/h") [str "/a", str "/b"]).head?
    ∧ probeFirst (fun s => s = str "/a/f" ∨ s = str "/b/f" : Str → Bool)
        (candidates (str "f") (str "/h") [str "/a", str "/b"])
      = ([str "/h/f", str "/a/f"], some (str "/a/f")) :=
  ⟨(findFirst_is_head_of_findAll
      (fun s => s = str "/a/f" ∨ s = str "/b/f" : Str → Bool)
      (str "f") (str "/h") [str "/a", str "/b"]).1,
   (findFirst_is_head_of_findAll
      (fun s => s = str "/a/f" ∨ s = str "/b/f" : Str → Bool)
      (str "f") (str "/h") [str "/a", str "/b"]).2
      [str "/h/f"] (str "/a/f") [str "/b/f"] (by decide) (by decide) (by decide)⟩

/-- C5: the backward merge visits the existing candidate files in
exactly the reverse of the forward order; over dirs `[A, B]` with home
`H`, when all three candidate files exist, the visit order is `B`'s
file, then `A`'s, then `H`'s. -/
theorem mergeBackward_visits_reversed (fs : Str → Bool) (s H A B : Str)
    (f : Str → Option GoErr) (hH : H ≠ []) (hf : ∀ x, f x = none) :
    (mergeRun f (findAllReverse fs s H [A, B])).1
        = ((mergeRun f (findAll fs s H [A, B])).1).reverse
    ∧ (fs (pjoin H s) = true → fs (pjoin A s) = true → fs (pjoin B s) = true →
        (mergeRun f (findAllReverse fs s H [A, B])).1
          = [pjoin B s, pjoin A s, pjoin H s]) := by
  have hall : ∀ (l : List Str), mergeRun f l = (l, none) :=
    fun l => mergeRun_all_none f l (fun x _ => hf x)
  constructor
  · rw [hall, hall]
    rfl
  · intro hHs hAs hBs
    rw [hall]
    simp [findAllReverse, findAll, candidates, hH, hHs, hAs, hBs]

/-- Witness for C5: home `/h`, dirs `[/a, /b]`, every candidate file
existing, a `nil`-returning callback — the backward merge visits
`/b/f`, `/a/f`, `/h/f` in that order. -/
theorem mergeBackward_visits_reversed_witness :
    (mergeRun (fun _ => none)
        (findAllReverse (fun _ => true) (str "f") (str "/h") [str "/a", str "/b"])).1
      = [str "/b/f", str "/a/f", str "/h/f"] :=
  (mergeBackward_visits_reversed (fun _ => true) (str "f") (str "/h")
      (str "/a") (str "/b") (fun _ => none) (by decide) (fun _ => rfl)).2
    rfl rfl rfl

/-- C8: resolution is a deterministic, side-effect-free function of
the environment snapshot — two runs over pointwise-identical snapshots
produce the same six directory values and the same diagnostics log, in
the same order. -/
theorem resolve_deterministic (env1 env2 : Env) (h : ∀ v, env1 v = env2 v) :
    resolve env1 = resolve env2 := by
  have he : env1 = env2 := funext h
  rw [he]

/-- Witness for C8: two runs over the snapshot `{HOME: "/home/u"}`
agree. -/
theorem resolve_deterministic_witness :
    resolve (fun v => if v = str "HOME" then str "/home/u" else [])
      = resolve (fun v => if v = str "HOME" then str "/home/u" else []) :=
  resolve_deterministic
    (fun v => if v = str "HOME" then str "/home/u" else [])
    (fun v => if v = str "HOME" then str "/home/u" else [])
    (fun _ => rfl)

end Xdg

namespace Xdg

/-- C1 (code divergence): in the environment `{HOME: "/home/u"}` with
every `XDG_*` variable unset, `init` as written resolves ConfigHome,
DataHome and CacheHome all to the empty string — the inverted `IsAbs`
check discards the absolute HOME — instead of `/home/u/.config`,
`/home/u/.local/share` and `/home/u/.cache`; moreover the default
templates `init` passes for DataHome and CacheHome are the
Config-home template, so even with HOME available the scalar resolver
yields `/home/u/.config` for both. -/
theorem defaults_at_home_u_code_eval :
    (resolve (fun v => if v = str "HOME" then str "/home/u" else [])).configHome = []
    ∧ (resolve (fun v => if v = str "HOME" then str "/home/u" else [])).dataHome = []
    ∧ (resolve (fun v => if v = str "HOME" then str "/home/u" else [])).cacheHome = []
    ∧ (xdgPath (str "/home/u") (fun _ => []) (str "XDG_DATA_HOME")
        (str "$HOME/.config")).1 = str "/home/u/.config"
    ∧ (xdgPath (str "/home/u") (fun _ => []) (str "XDG_CACHE_HOME")
        (str "$HOME/.config")).1 = str "/home/u/.config" := by
  decide

/-- C2 (code divergence): `init` as written rejects HOME exactly when
it IS absolute — `{HOME: "/home/u"}` leaves the home value empty and
appends `ErrHomeInvalid`, while `{HOME: "relative/path"}` is accepted
as the home value with no such diagnostic — the opposite of the
claimed acceptance condition. -/
theorem home_check_inverted_code_eval :
    (resolve (fun v => if v = str "HOME" then str "/home/u" else [])).home = []
    ∧ GoErr.errHomeInvalid
        ∈ (resolve (fun v => if v = str "HOME" then str "/home/u" else [])).errs
    ∧ (resolve (fun v => if v = str "HOME" then str "relative/path" else [])).home
        = str "relative/path"
    ∧ GoErr.errHomeInvalid
        ∉ (resolve (fun v => if v = str "HOME" then str "relative/path" else [])).errs := by
  decide

/-- C9 (code divergence): after resolution of `{HOME: "relative/path"}`
the resolved home value is non-empty yet not absolute, breaking the
invariant that every non-empty resolved directory value is an
absolute path; the four scalars and both lists do satisfy it there. -/
theorem home_value_not_absolute_code_eval :
    (resolve (fun v => if v = str "HOME" then str "relative/path" else [])).home ≠ []
    ∧ isAbs (resolve (fun v => if v = str "HOME" then str "relative/path" else [])).home
        = false
    ∧ ((resolve (fun v => if v = str "HOME" then str "relative/path" else [])).configDirs.all
        isAbs) = true
    ∧ ((resolve (fun v => if v = str "HOME" then str "relative/path" else [])).dataDirs.all
        isAbs) = true := by
  decide

end Xdg
